import Mathlib

/-!
Verification of the WhatCMS scan tool (`main.py`) against its specification.

The program is a linear sequence of HTTP GET requests interpreted against
static rules.  We embed it shallowly: the network is a function from URL to
an optional HTTP response (`none` models a raised `requests.RequestException`),
the WordPress version feed is a separate field of the network (its body has a
different shape), and the single request to the fingerprinting service is
abstracted by its HTTP status and parsed JSON body, which `run` receives as
inputs.  Fatal terminations (`sys.exit`) and uncaught Python exceptions are
modelled by the `Except.error` constructor carrying the diagnostic; `main`
writes the output file exactly when `run` returns normally, which
`writesOutput` records.

Python truthiness of optional strings (`if name`, `if version`, `if latest`)
is modelled by `truthy`: `None` and the empty string are falsy.
-/

set_option autoImplicit false

namespace WhatCMS

/-- An HTTP response as far as this program inspects it: a status code and
the response header names (values are never read).  `requests` exposes the
headers through a case-insensitive dictionary, which `hasHeader` models. -/
structure HttpResponse where
  status : Nat
  headers : List String
deriving DecidableEq

/-- The body of the WordPress version-check feed, as far as the program reads
it: the optional `offers` list, each offer reduced to its optional `current`
version string.  `offers = none` models a JSON body without an `offers` key,
in which case the code substitutes the default `[{}]`. -/
structure Feed where
  offers : Option (List (Option String))
deriving DecidableEq

/-- The outside world: every GET the program can issue.  `get url = none`
models a `requests.RequestException` raised for that URL; the version feed is
kept separate because its parsed JSON body, not its status, is consumed. -/
structure Network where
  get : String → Option HttpResponse
  feed : Option Feed

/-- The parsed JSON body of the fingerprinting-service response, restricted
to the four fields the program reads via `data.get(...)` / `data["msg"]`.
`none` models an absent (or `null`) field. -/
structure ApiResponse where
  name : Option String
  version : Option String
  confidence : Option Int
  msg : Option String
deriving DecidableEq

/-- The report `run` builds: a dict with exactly the keys `target` and
`messages` (the source never stores a `cms` key in the result). -/
structure Report where
  target : String
  messages : List String
deriving DecidableEq

/-- Python truthiness of an optional string: `None` and `""` are falsy. -/
def truthy : Option String → Bool
  | none => false
  | some s => s != ""

/-- Character-list test: the first list is an initial segment of the second.
Used to model Python string operations by structural recursion on the
underlying characters (which the kernel can evaluate). -/
def startsWithChars : List Char → List Char → Bool
  | [], _ => true
  | _ :: _, [] => false
  | p :: ps, c :: cs => p == c && startsWithChars ps cs

/-- Character-list test: the pattern occurs as a contiguous run somewhere. -/
def occursInChars (pat : List Char) : List Char → Bool
  | [] => startsWithChars pat []
  | c :: cs => startsWithChars pat (c :: cs) || occursInChars pat cs

/-- Python substring containment `pat in s`. -/
def containsStr (s pat : String) : Bool :=
  occursInChars pat.data s.data

/-- Python `s.startswith(p)`. -/
def startsWithStr (s p : String) : Bool :=
  startsWithChars p.data s.data

/-- Lower-casing for case-insensitive header-name comparison. -/
def lowerStr (s : String) : String :=
  String.mk (s.data.map Char.toLower)

/-- `requests` header lookup is case-insensitive; `"K" not in headers` in the
source therefore means no stored header name matches up to case. -/
def hasHeader (hs : List String) (key : String) : Bool :=
  hs.any (fun h => lowerStr h == lowerStr key)

/-- The scheme-probe test from `normalize_target`: a response was received
(no exception) and its status code is `< 400`. -/
def probeOk (net : Network) (url : String) : Bool :=
  match net.get url with
  | some r => decide (r.status < 400)
  | none => false

/-- `normalize_target` (main.py:19-29): pass through inputs already carrying
a scheme; otherwise try `http://` then `https://`, returning the first form
whose probe answers with status `< 400`; on a probe exception continue to the
next scheme; if neither works, `sys.exit("Connection Error")`. -/
def normalize_target (net : Network) (target : String) : Except String String :=
  if startsWithStr target "http://" || startsWithStr target "https://" then
    Except.ok target
  else if probeOk net ("http://" ++ target) then
    Except.ok ("http://" ++ target)
  else if probeOk net ("https://" ++ target) then
    Except.ok ("https://" ++ target)
  else
    Except.error "Connection Error"

/-- The invalid-key test from `get_cms_info` (main.py:38): the body has a
`msg` field and the literal `"Invalid API key"` occurs in it as a substring. -/
def hasInvalidKeyMsg (data : ApiResponse) : Bool :=
  match data.msg with
  | some m => containsStr m "Invalid API key"
  | none => false

/-- Result of `get_cms_info`: either the sentinel string `"Invalid API key"`
or the dict `{name, version, confidence}` built from `data.get(...)` (so
`confidence` is carried over as-is, possibly `None`). -/
inductive CmsResult where
  | invalidKey : CmsResult
  | info : Option String → Option String → Option Int → CmsResult
deriving DecidableEq

/-- `get_cms_info` (main.py:32-44), abstracting the HTTP exchange with the
fingerprinting service by its status code and parsed body: a non-200 status
is `sys.exit("API request failed")`; an invalid-key body yields the sentinel;
otherwise the three fields are extracted verbatim. -/
def get_cms_info (status : Nat) (data : ApiResponse) : Except String CmsResult :=
  if status ≠ 200 then Except.error "API request failed"
  else if hasInvalidKeyMsg data then Except.ok CmsResult.invalidKey
  else Except.ok (CmsResult.info data.name data.version data.confidence)

/-- One known-path probe: a finding exactly when a response arrives with
status 200; an exception or any other status contributes nothing. -/
def probeFinding (net : Network) (url msg : String) : List String :=
  match net.get url with
  | some r => if r.status = 200 then [msg] else []
  | none => []

/-- The version-freshness part of `check_wordpress` (main.py:65-74): only
when the reported version is truthy; a feed fetch exception is swallowed; a
missing `offers` key defaults to `[{}]` whose first element has no `current`;
an empty `offers` list makes `[0]` raise an uncaught `IndexError`; otherwise
the finding fires when `latest` is truthy and differs from the version. -/
def versionFindings (net : Network) (version : Option String) : Except String (List String) :=
  if truthy version then
    match net.feed with
    | none => Except.ok []
    | some f =>
      match f.offers with
      | none => Except.ok []
      | some [] => Except.error "IndexError"
      | some (latest :: _) =>
        match latest with
        | some l =>
          if l != "" && version.getD "" != l then
            Except.ok ["WordPress version (" ++ version.getD "" ++ ") is outdated. Latest: " ++ l]
          else Except.ok []
        | none => Except.ok []
  else Except.ok []

/-- `check_wordpress` (main.py:47-74): two independent path probes (each in
its own try/except, appending on status 200) followed by the
version-freshness check.  The list of findings it appends is returned. -/
def check_wordpress (net : Network) (target : String) (version : Option String) :
    Except String (List String) :=
  let messages : List String := []
  let messages :=
    match net.get (target ++ "/readme.html") with
    | some r =>
      if r.status = 200 then
        messages ++ ["readme.html is accessible – version disclosure risk"]
      else messages
    | none => messages
  let messages :=
    match net.get (target ++ "/wp-config.php") with
    | some r =>
      if r.status = 200 then
        messages ++ ["wp-config.php is accessible – critical security risk"]
      else messages
    | none => messages
  if truthy version then
    match net.feed with
    | none => Except.ok messages
    | some f =>
      match f.offers with
      | none => Except.ok messages
      | some [] => Except.error "IndexError"
      | some (latest :: _) =>
        match latest with
        | some l =>
          if l != "" && version.getD "" != l then
            Except.ok (messages ++
              ["WordPress version (" ++ version.getD "" ++ ") is outdated. Latest: " ++ l])
          else Except.ok messages
        | none => Except.ok messages
  else Except.ok messages

/-- `check_joomla` (main.py:77-94): two independent path probes, each
appending its fixed finding on status 200. -/
def check_joomla (net : Network) (target : String) : List String :=
  let messages : List String := []
  let messages :=
    match net.get (target ++ "/configuration.php") with
    | some r =>
      if r.status = 200 then
        messages ++ ["configuration.php is accessible – sensitive data exposure risk"]
      else messages
    | none => messages
  let messages :=
    match net.get (target ++ "/administrator/") with
    | some r =>
      if r.status = 200 then
        messages ++ ["/administrator/ directory is accessible – check access restrictions"]
      else messages
    | none => messages
  messages

/-- `check_drupal` (main.py:97-106): one path probe. -/
def check_drupal (net : Network) (target : String) : List String :=
  let messages : List String := []
  let messages :=
    match net.get (target ++ "/CHANGELOG.txt") with
    | some r =>
      if r.status = 200 then
        messages ++ ["CHANGELOG.txt is accessible – version disclosure risk"]
      else messages
    | none => messages
  messages

/-- `check_security_headers` (main.py:109-123): one GET to the target; on an
exception the whole check is skipped; otherwise each of the two headers that
is absent (case-insensitively) yields one finding. -/
def check_security_headers (net : Network) (target : String) : List String :=
  match net.get target with
  | none => []
  | some r =>
    let messages : List String := []
    let messages :=
      if hasHeader r.headers "Content-Security-Policy" then messages
      else messages ++ ["Missing Content-Security-Policy header"]
    let messages :=
      if hasHeader r.headers "X-Frame-Options" then messages
      else messages ++ ["Missing X-Frame-Options header"]
    messages

/-- The f-string of main.py:148: `"Detected CMS: {name} {version}"` when the
version is truthy, else `"Detected CMS: {name}"`. -/
def detectedMsg (name version : Option String) : String :=
  if truthy version then
    "Detected CMS: " ++ name.getD "" ++ " " ++ version.getD ""
  else
    "Detected CMS: " ++ name.getD ""

/-- The detection step of `run` (main.py:147-150): `if name and confidence >= 80`.
A truthy name forces the comparison `confidence >= 80`, which on a `None`
confidence raises an uncaught `TypeError`; a falsy name short-circuits. -/
def detectFindings (name version : Option String) (confidence : Option Int) :
    Except String (List String) :=
  if truthy name then
    match confidence with
    | none => Except.error "TypeError"
    | some c => if 80 ≤ c then Except.ok [detectedMsg name version] else Except.ok []
  else Except.ok []

/-- The CMS dispatch of `run` (main.py:152-157): exact string comparison of
the reported name against the three known CMS names; anything else runs no
CMS-specific checker. -/
def dispatchChecker (net : Network) (target : String) (name version : Option String) :
    Except String (List String) :=
  if name = some "WordPress" then check_wordpress net target version
  else if name = some "Joomla" then Except.ok (check_joomla net target)
  else if name = some "Drupal" then Except.ok (check_drupal net target)
  else Except.ok []

/-- The tail of `run` (main.py:136-160) after the identifier answered: the
invalid-key sentinel short-circuits to a report whose messages are exactly
that one literal; otherwise messages are the detection finding, then the
dispatched checker's findings, then the header-check findings, in order. -/
def runFromCms (net : Network) (target : String) : CmsResult → Except String Report
  | CmsResult.invalidKey => Except.ok ⟨target, ["Invalid API key"]⟩
  | CmsResult.info name version confidence =>
    (detectFindings name version confidence).bind fun dm =>
      (dispatchChecker net target name version).map fun cm =>
        ⟨target, dm ++ cm ++ check_security_headers net target⟩

/-- `run` (main.py:126-160): normalize the target, query the identifier
(abstracted by `apiStatus`/`apiData`), then assemble the report. -/
def run (net : Network) (target0 : String) (apiStatus : Nat) (apiData : ApiResponse) :
    Except String Report :=
  (normalize_target net target0).bind fun target =>
    (get_cms_info apiStatus apiData).bind fun cms =>
      runFromCms net target cms

/-- `main` (main.py:163-182) writes the output file exactly when `run`
returns (a `sys.exit` or uncaught exception inside `run` prevents it). -/
def writesOutput : Except String Report → Bool
  | Except.ok _ => true
  | Except.error _ => false

/-- Whether a timeout value is a short fixed timeout of a few seconds. -/
def shortTimeoutB : Option Nat → Bool
  | some t => decide (t ≤ 5)
  | none => false

/-- The nine `requests.get` call sites of main.py with the `timeout=`
argument each passes (`none` = no timeout argument): lines 24, 34, 50, 58,
67, 80, 88, 100, 112 of the source. -/
def requestTimeouts : List (String × Option Nat) :=
  [ ("normalize_target scheme probe", some 5),
    ("get_cms_info fingerprinting request", none),
    ("check_wordpress readme.html probe", some 5),
    ("check_wordpress wp-config.php probe", some 5),
    ("check_wordpress version feed request", some 5),
    ("check_joomla configuration.php probe", some 5),
    ("check_joomla administrator probe", some 5),
    ("check_drupal CHANGELOG.txt probe", some 5),
    ("check_security_headers request", some 5) ]

instance {α β : Type} [DecidableEq α] [DecidableEq β] : DecidableEq (Except α β) := fun x y =>
  match x, y with
  | Except.ok a, Except.ok b =>
    if h : a = b then isTrue (by rw [h]) else isFalse (fun hc => by cases hc; exact h rfl)
  | Except.error a, Except.error b =>
    if h : a = b then isTrue (by rw [h]) else isFalse (fun hc => by cases hc; exact h rfl)
  | Except.ok _, Except.error _ => isFalse (fun hc => by cases hc)
  | Except.error _, Except.ok _ => isFalse (fun hc => by cases hc)

/-- A world where every request raises an exception and the feed fetch fails. -/
def net0 : Network := ⟨fun _ => none, none⟩

/-- A world where every request answers 200 with no headers and the feed
offers latest version 9.9. -/
def netAll : Network := ⟨fun _ => some ⟨200, []⟩, some ⟨some [some "9.9"]⟩⟩

lemma run_core (net : Network) (t0 t' : String) (data : ApiResponse)
    (hn : normalize_target net t0 = Except.ok t')
    (hik : hasInvalidKeyMsg data = false) :
    run net t0 200 data =
      (detectFindings data.name data.version data.confidence).bind fun dm =>
        (dispatchChecker net t' data.name data.version).map fun cm =>
          (⟨t', dm ++ cm ++ check_security_headers net t'⟩ : Report) := by
  unfold run
  rw [hn]
  simp only [Except.bind]
  unfold get_cms_info
  simp [hik, runFromCms, Except.bind]

lemma run_decomp (net : Network) (t0 t' : String) (data : ApiResponse) (dm cm : List String)
    (hn : normalize_target net t0 = Except.ok t')
    (hik : hasInvalidKeyMsg data = false)
    (hdm : detectFindings data.name data.version data.confidence = Except.ok dm)
    (hcm : dispatchChecker net t' data.name data.version = Except.ok cm) :
    run net t0 200 data = Except.ok ⟨t', dm ++ cm ++ check_security_headers net t'⟩ := by
  rw [run_core net t0 t' data hn hik]
  simp only [hdm, Except.bind, hcm, Except.map]

lemma run_decomp_inv (net : Network) (t0 t' : String) (data : ApiResponse) (r : Report)
    (hn : normalize_target net t0 = Except.ok t')
    (hik : hasInvalidKeyMsg data = false)
    (hrun : run net t0 200 data = Except.ok r) :
    ∃ dm cm, detectFindings data.name data.version data.confidence = Except.ok dm
      ∧ dispatchChecker net t' data.name data.version = Except.ok cm
      ∧ r = ⟨t', dm ++ cm ++ check_security_headers net t'⟩ := by
  rw [run_core net t0 t' data hn hik] at hrun
  cases hdm : detectFindings data.name data.version data.confidence with
  | error e => rw [hdm] at hrun; exact absurd hrun (by simp [Except.bind])
  | ok dm =>
    rw [hdm] at hrun
    simp only [Except.bind] at hrun
    cases hcm : dispatchChecker net t' data.name data.version with
    | error e => rw [hcm] at hrun; exact absurd hrun (by simp [Except.map])
    | ok cm =>
      rw [hcm] at hrun
      simp only [Except.map, Except.ok.injEq] at hrun
      exact ⟨dm, cm, rfl, rfl, hrun.symm⟩

lemma run_invalid_key (net : Network) (t0 t' : String) (data : ApiResponse)
    (hn : normalize_target net t0 = Except.ok t')
    (hik : hasInvalidKeyMsg data = true) :
    run net t0 200 data = Except.ok ⟨t', ["Invalid API key"]⟩ := by
  unfold run
  rw [hn]
  simp only [Except.bind]
  unfold get_cms_info
  simp [hik, runFromCms]

lemma probeAcc (net : Network) (u m : String) (ms : List String) :
    (match net.get u with
     | some r => if r.status = 200 then ms ++ [m] else ms
     | none => ms) = ms ++ probeFinding net u m := by
  unfold probeFinding
  cases net.get u with
  | none => simp
  | some r => by_cases h : r.status = 200 <;> simp [h]

lemma wpVersionTail (net : Network) (version : Option String) (ms : List String) :
    (if truthy version then
        match net.feed with
        | none => Except.ok ms
        | some f =>
          match f.offers with
          | none => Except.ok ms
          | some [] => Except.error "IndexError"
          | some (latest :: _) =>
            match latest with
            | some l =>
              if l != "" && version.getD "" != l then
                Except.ok (ms ++
                  ["WordPress version (" ++ version.getD "" ++ ") is outdated. Latest: " ++ l])
              else Except.ok ms
            | none => Except.ok ms
      else Except.ok ms)
      = (versionFindings net version).map fun vs => ms ++ vs := by
  unfold versionFindings
  cases htv : truthy version
  · simp [htv, Except.map]
  · simp only [htv, if_true]
    cases hnf : net.feed with
    | none => simp [Except.map]
    | some f =>
      cases ho : f.offers with
      | none => simp [ho, Except.map]
      | some offs =>
        cases offs with
        | nil => simp [ho, Except.map]
        | cons latest rest =>
          cases latest with
          | none => simp [ho, Except.map]
          | some s =>
            by_cases hc : (s != "" && version.getD "" != s) = true
            · simp [ho, hc, Except.map]
            · simp only [Bool.not_eq_true] at hc
              simp [ho, hc, Except.map]

lemma check_joomla_eq (net : Network) (t : String) :
    check_joomla net t =
      probeFinding net (t ++ "/configuration.php")
        "configuration.php is accessible – sensitive data exposure risk"
      ++ probeFinding net (t ++ "/administrator/")
        "/administrator/ directory is accessible – check access restrictions" := by
  unfold check_joomla
  simp only [probeAcc, List.nil_append]
  rfl

lemma check_drupal_eq (net : Network) (t : String) :
    check_drupal net t =
      probeFinding net (t ++ "/CHANGELOG.txt")
        "CHANGELOG.txt is accessible – version disclosure risk" := by
  unfold check_drupal
  simp only [probeAcc, List.nil_append]
  rfl

lemma check_wordpress_eq (net : Network) (t : String) (version : Option String) :
    check_wordpress net t version =
      (versionFindings net version).map fun vs =>
        probeFinding net (t ++ "/readme.html")
          "readme.html is accessible – version disclosure risk"
        ++ probeFinding net (t ++ "/wp-config.php")
          "wp-config.php is accessible – critical security risk"
        ++ vs := by
  unfold check_wordpress
  simp only [probeAcc, List.nil_append, wpVersionTail]
  rfl

/-- C1: the spec says a confidence absent from the API body is treated as 0,
so with a name present and no confidence the run produces no detection
finding and proceeds to the subsequent checks without error.  In the code,
`get_cms_info` stores `data.get("confidence")`, i.e. `None`, under the
`"confidence"` key, so the default in `cms.get("confidence", 0)` never
applies and `run` evaluates `None >= 80`, an uncaught `TypeError`: the run
aborts with no report instead of proceeding.  (The dead default `0` at
main.py:145 shows the intended behaviour; the slip is at main.py:43.) -/
theorem c1_missing_confidence_crashes :
    run net0 "http://example.com" 200 ⟨some "WordPress", none, none, none⟩
      = Except.error "TypeError" := by
  decide

/-- C2 counterexample: two runs whose identifier results are not the
invalid-key sentinel and whose extracted CMS payloads differ (one names a
CMS, the other does not) produce byte-identical reports, so the report
carries no `cms` field with the extracted name/version/confidence. -/
theorem c2_no_cms_field_counterexample :
    run net0 "http://example.com" 200 ⟨some "Foo", some "1.0", some 10, none⟩
      = run net0 "http://example.com" 200 ⟨none, none, some 10, none⟩
    ∧ (⟨some "Foo", some "1.0", some 10, none⟩ : ApiResponse).name
        ≠ (⟨none, none, some 10, none⟩ : ApiResponse).name
    ∧ hasInvalidKeyMsg ⟨some "Foo", some "1.0", some 10, none⟩ = false
    ∧ hasInvalidKeyMsg ⟨none, none, some 10, none⟩ = false := by
  exact ⟨by decide, by decide, by decide, by decide⟩

/-- C2 (amended): for every non-invalid-key run the final report consists of
exactly the normalized target and the ordered message list (detection
finding, then dispatched checker findings, then header findings); the CMS
identification payload itself is not part of the report. -/
theorem c2_report_assembly (net : Network) (t0 t' : String) (data : ApiResponse)
    (dm cm : List String)
    (hn : normalize_target net t0 = Except.ok t')
    (hik : hasInvalidKeyMsg data = false)
    (hdm : detectFindings data.name data.version data.confidence = Except.ok dm)
    (hcm : dispatchChecker net t' data.name data.version = Except.ok cm) :
    run net t0 200 data = Except.ok ⟨t', dm ++ cm ++ check_security_headers net t'⟩ :=
  run_decomp net t0 t' data dm cm hn hik hdm hcm

theorem c2_report_assembly_witness :
    run net0 "http://example.com" 200 ⟨some "Foo", some "1.0", some 10, none⟩
      = Except.ok ⟨"http://example.com",
          [] ++ [] ++ check_security_headers net0 "http://example.com"⟩ :=
  c2_report_assembly net0 "http://example.com" "http://example.com"
    ⟨some "Foo", some "1.0", some 10, none⟩ [] [] (by decide) (by decide)
    (by decide) (by decide)

/-- C3 counterexample: not every outbound request carries a short fixed
timeout — the fingerprinting-service request (main.py:34) passes no timeout
argument at all. -/
theorem c3_timeout_counterexample :
    ¬ (∀ p ∈ requestTimeouts, shortTimeoutB p.2 = true) := by
  decide

/-- C3 (amended): every outbound request except the fingerprinting-service
request uses the fixed 5-second timeout; that one request sets no timeout,
and it is the only one that lacks a short fixed timeout. -/
theorem c3_timeouts_amended :
    (requestTimeouts.filter (fun p => !shortTimeoutB p.2)).map Prod.fst
      = ["get_cms_info fingerprinting request"]
    ∧ (requestTimeouts.all fun p =>
        p.2 == some 5 || p.1 == "get_cms_info fingerprinting request") = true := by
  exact ⟨by decide, by decide⟩

/-- C4: a 200 fingerprinting response whose body signals an invalid key
yields a successful run whose report messages are exactly the one
invalid-key message; since this holds for every network behaviour (here the
net is universally quantified, including worlds where every probe would
answer 200 and both security headers are missing), neither a CMS-specific
checker nor the header check contributes anything. -/
theorem c4_invalid_key_outcome (net : Network) (t0 t' : String) (data : ApiResponse)
    (hn : normalize_target net t0 = Except.ok t')
    (hik : hasInvalidKeyMsg data = true) :
    run net t0 200 data = Except.ok ⟨t', ["Invalid API key"]⟩ :=
  run_invalid_key net t0 t' data hn hik

theorem c4_invalid_key_outcome_witness :
    run netAll "http://example.com" 200 ⟨none, none, none, some "Invalid API key"⟩
      = Except.ok ⟨"http://example.com", ["Invalid API key"]⟩ :=
  c4_invalid_key_outcome netAll "http://example.com" "http://example.com"
    ⟨none, none, none, some "Invalid API key"⟩ (by decide) (by decide)

/-- A world where only the readme.html probe answers (status 200). -/
def netWp : Network :=
  ⟨fun url => if url = "http://example.com/readme.html" then some ⟨200, []⟩ else none, none⟩

/-- A world whose target response carries (only) a lower-cased
Content-Security-Policy header. -/
def netCsp : Network := ⟨fun _ => some ⟨200, ["content-security-policy"]⟩, none⟩

/-- C5: a "Detected CMS" finding heads the message list iff the reported
name is truthy and the confidence is a number at least 80 (the version is
omitted from the string when absent, per `detectedMsg`); with confidence
below 80 the detection finding is absent yet the dispatched CMS-specific
checker still runs, its findings (followed by the header findings) being the
whole message list. -/
theorem c5_detection_threshold (net : Network) (t0 t' : String) (data : ApiResponse) (r : Report)
    (hn : normalize_target net t0 = Except.ok t')
    (hik : hasInvalidKeyMsg data = false)
    (hrun : run net t0 200 data = Except.ok r) :
    (∃ rest, r.messages =
      (if truthy data.name then
         match data.confidence with
         | some c => if 80 ≤ c then [detectedMsg data.name data.version] else []
         | none => []
       else []) ++ rest)
    ∧ (∀ nm : Option String, detectedMsg nm none = "Detected CMS: " ++ nm.getD "")
    ∧ (∀ c : Int, data.confidence = some c → c < 80 →
        ∀ cm, dispatchChecker net t' data.name data.version = Except.ok cm →
          r.messages = cm ++ check_security_headers net t') := by
  obtain ⟨dm, cm, hdm, hcm, hr⟩ := run_decomp_inv net t0 t' data r hn hik hrun
  have hdmval : dm =
      (if truthy data.name then
         match data.confidence with
         | some c => if 80 ≤ c then [detectedMsg data.name data.version] else []
         | none => []
       else []) := by
    unfold detectFindings at hdm
    cases htr : truthy data.name with
    | false =>
      rw [htr] at hdm
      simp only [Bool.false_eq_true, if_false, Except.ok.injEq] at hdm
      simp [htr, hdm.symm]
    | true =>
      rw [htr] at hdm
      cases hco : data.confidence with
      | none => rw [hco] at hdm; simp at hdm
      | some c =>
        rw [hco] at hdm
        by_cases hge : (80 : Int) ≤ c
        · simp [hge] at hdm
          subst hdm
          simp [htr, hco, hge]
        · simp [hge] at hdm
          subst hdm
          simp [htr, hco, hge]
  refine ⟨⟨cm ++ check_security_headers net t', ?_⟩, fun nm => rfl, ?_⟩
  · rw [hr]
    simp [hdmval.symm, List.append_assoc]
  · intro c hco hlt cm' hcm'
    have hcmeq : cm' = cm := by
      rw [hcm] at hcm'
      exact (Except.ok.inj hcm').symm
    have hdm0 : dm = [] := by
      rw [hdmval, hco]
      cases truthy data.name <;> simp [hlt.not_le]
    rw [hr, hcmeq]
    simp [hdm0]

theorem c5_detection_threshold_witness :
    (∃ rest, (Report.mk "http://example.com"
        ["readme.html is accessible – version disclosure risk"]).messages = [] ++ rest)
    ∧ (Report.mk "http://example.com"
        ["readme.html is accessible – version disclosure risk"]).messages
        = ["readme.html is accessible – version disclosure risk"]
          ++ check_security_headers netWp "http://example.com" := by
  have h := c5_detection_threshold netWp "http://example.com" "http://example.com"
    ⟨some "WordPress", none, some 50, none⟩
    ⟨"http://example.com", ["readme.html is accessible – version disclosure risk"]⟩
    (by decide) (by decide) (by decide)
  exact ⟨h.1, h.2.2 50 rfl (by decide)
    ["readme.html is accessible – version disclosure risk"] (by decide)⟩

/-- C6: an input already carrying a scheme is returned unchanged (for every
network, hence without consulting any probe); otherwise http is probed
before https and the first scheme answering with status < 400 wins; when
neither does, the run ends with the fatal "Connection Error" and `main`
writes no output file. -/
theorem c6_scheme_normalization (net : Network) (t : String) :
    ((startsWithStr t "http://" || startsWithStr t "https://") = true →
        normalize_target net t = Except.ok t)
    ∧ ((startsWithStr t "http://" || startsWithStr t "https://") = false →
        (probeOk net ("http://" ++ t) = true →
            normalize_target net t = Except.ok ("http://" ++ t))
        ∧ (probeOk net ("http://" ++ t) = false →
            (probeOk net ("https://" ++ t) = true →
                normalize_target net t = Except.ok ("https://" ++ t))
            ∧ (probeOk net ("https://" ++ t) = false →
                normalize_target net t = Except.error "Connection Error"
                ∧ ∀ (s : Nat) (data : ApiResponse),
                    writesOutput (run net t s data) = false))) := by
  refine ⟨fun h => by simp [normalize_target, h],
    fun h => ⟨fun h1 => by simp [normalize_target, h, h1],
      fun h1 => ⟨fun h2 => by simp [normalize_target, h, h1, h2],
        fun h2 => ⟨by simp [normalize_target, h, h1, h2],
          fun s data => by
            simp [run, normalize_target, h, h1, h2, writesOutput, Except.bind]⟩⟩⟩⟩

theorem c6_scheme_normalization_witness :
    normalize_target net0 "http://example.com" = Except.ok "http://example.com"
    ∧ normalize_target netAll "example.com" = Except.ok "http://example.com"
    ∧ normalize_target net0 "example.com" = Except.error "Connection Error"
    ∧ writesOutput (run net0 "example.com" 200 ⟨none, none, some 0, none⟩) = false := by
  refine ⟨(c6_scheme_normalization net0 "http://example.com").1 (by decide), ?_, ?_, ?_⟩
  · exact ((c6_scheme_normalization netAll "example.com").2 (by decide)).1 (by decide)
  · exact ((((c6_scheme_normalization net0 "example.com").2 (by decide)).2
      (by decide)).2 (by decide)).1
  · exact ((((c6_scheme_normalization net0 "example.com").2 (by decide)).2
      (by decide)).2 (by decide)).2 200 ⟨none, none, some 0, none⟩

/-- C7: each CMS checker is the concatenation of its independent per-path
probe findings (so no probe outcome affects another, and a failed probe is
silently skipped while the rest still contribute); a single probe yields its
fixed finding exactly on status 200, nothing on any other status, and
nothing on a network failure. -/
theorem c7_probe_independence (net : Network) (t : String) :
    check_joomla net t =
      probeFinding net (t ++ "/configuration.php")
        "configuration.php is accessible – sensitive data exposure risk"
      ++ probeFinding net (t ++ "/administrator/")
        "/administrator/ directory is accessible – check access restrictions"
    ∧ check_drupal net t =
      probeFinding net (t ++ "/CHANGELOG.txt")
        "CHANGELOG.txt is accessible – version disclosure risk"
    ∧ (∀ version, check_wordpress net t version =
        (versionFindings net version).map fun vs =>
          probeFinding net (t ++ "/readme.html")
            "readme.html is accessible – version disclosure risk"
          ++ probeFinding net (t ++ "/wp-config.php")
            "wp-config.php is accessible – critical security risk"
          ++ vs)
    ∧ (∀ u m, net.get u = none → probeFinding net u m = [])
    ∧ (∀ u m r, net.get u = some r → r.status ≠ 200 → probeFinding net u m = [])
    ∧ (∀ u m r, net.get u = some r → r.status = 200 → probeFinding net u m = [m]) := by
  refine ⟨check_joomla_eq net t, check_drupal_eq net t,
    fun version => check_wordpress_eq net t version, ?_, ?_, ?_⟩
  · intro u m hu; simp [probeFinding, hu]
  · intro u m r hu hs; simp [probeFinding, hu, hs]
  · intro u m r hu hs; simp [probeFinding, hu, hs]

theorem c7_probe_independence_witness :
    probeFinding netWp "http://example.com/wp-config.php" "m" = []
    ∧ probeFinding netWp "http://example.com/readme.html" "m" = ["m"] := by
  have h := c7_probe_independence netWp "http://example.com"
  exact ⟨h.2.2.2.1 "http://example.com/wp-config.php" "m" (by decide),
    h.2.2.2.2.2 "http://example.com/readme.html" "m" ⟨200, []⟩ (by decide) rfl⟩

/-- C8: with a truthy reported version, the WordPress checker compares it to
the feed's first offered `current` string by exact string comparison and
emits the outdated-version finding (naming both values) exactly when they
differ; a failed feed fetch is silently swallowed (no finding, no error);
and the version step composes with the path probes without affecting them. -/
theorem c8_wordpress_version_freshness (net : Network) (v : String) (hv : v ≠ "") :
    (net.feed = none → versionFindings net (some v) = Except.ok [])
    ∧ (∀ (f : Feed) (l : String) (rest : List (Option String)),
        net.feed = some f → f.offers = some (some l :: rest) → l ≠ "" →
        versionFindings net (some v) =
          Except.ok (if v = l then []
            else ["WordPress version (" ++ v ++ ") is outdated. Latest: " ++ l]))
    ∧ (∀ t, check_wordpress net t (some v) =
        (versionFindings net (some v)).map fun vs =>
          probeFinding net (t ++ "/readme.html")
            "readme.html is accessible – version disclosure risk"
          ++ probeFinding net (t ++ "/wp-config.php")
            "wp-config.php is accessible – critical security risk"
          ++ vs) := by
  have htv : truthy (some v) = true := by simp [truthy, hv]
  refine ⟨?_, ?_, fun t => check_wordpress_eq net t (some v)⟩
  · intro hf; unfold versionFindings; rw [htv]; simp [hf]
  · intro f l rest hf ho hl
    unfold versionFindings
    rw [htv]
    simp only [if_true, hf, ho, Option.getD_some]
    by_cases hvl : v = l
    · simp [hvl]
    · simp [bne_iff_ne, hl, hvl]

theorem c8_wordpress_version_freshness_witness :
    versionFindings ⟨fun _ => none, some ⟨some [some "6.5"]⟩⟩ (some "6.0")
      = Except.ok ["WordPress version (6.0) is outdated. Latest: 6.5"]
    ∧ versionFindings net0 (some "6.0") = Except.ok [] := by
  have h1 := c8_wordpress_version_freshness ⟨fun _ => none, some ⟨some [some "6.5"]⟩⟩
    "6.0" (by decide)
  have h0 := c8_wordpress_version_freshness net0 "6.0" (by decide)
  refine ⟨?_, h0.1 rfl⟩
  have := h1.2.1 ⟨some [some "6.5"]⟩ "6.5" [] rfl rfl (by decide)
  simpa using this

/-- C9: on a successful GET to the target the header check appends one
finding per absent header (matched case-insensitively through `hasHeader`),
so a response missing both yields exactly the two findings; on a network
failure it appends nothing; and in every non-invalid-key run that returns a
report, the header findings are a suffix of the messages regardless of the
CMS detection outcome. -/
theorem c9_header_check (net : Network) (t : String) :
    (∀ r, net.get t = some r →
        check_security_headers net t =
          (if hasHeader r.headers "Content-Security-Policy" then []
           else ["Missing Content-Security-Policy header"])
          ++ (if hasHeader r.headers "X-Frame-Options" then []
              else ["Missing X-Frame-Options header"]))
    ∧ (net.get t = none → check_security_headers net t = [])
    ∧ (∀ r, net.get t = some r →
        hasHeader r.headers "Content-Security-Policy" = false →
        hasHeader r.headers "X-Frame-Options" = false →
        check_security_headers net t =
          ["Missing Content-Security-Policy header", "Missing X-Frame-Options header"])
    ∧ (∀ (t0 : String) (data : ApiResponse) (r : Report),
        normalize_target net t0 = Except.ok t →
        hasInvalidKeyMsg data = false →
        run net t0 200 data = Except.ok r →
        ∃ ms, r.messages = ms ++ check_security_headers net t) := by
  refine ⟨?_, ?_, ?_, ?_⟩
  · intro r hr
    unfold check_security_headers
    rw [hr]
    by_cases h1 : hasHeader r.headers "Content-Security-Policy" <;>
    by_cases h2 : hasHeader r.headers "X-Frame-Options" <;>
    simp [h1, h2]
  · intro hr; simp [check_security_headers, hr]
  · intro r hr h1 h2
    unfold check_security_headers
    rw [hr]
    simp [h1, h2]
  · intro t0 data r hn hik hrun
    obtain ⟨dm, cm, _, _, hr⟩ := run_decomp_inv net t0 t data r hn hik hrun
    exact ⟨dm ++ cm, by rw [hr]⟩

theorem c9_header_check_witness :
    check_security_headers netAll "http://example.com"
      = ["Missing Content-Security-Policy header", "Missing X-Frame-Options header"]
    ∧ check_security_headers net0 "http://example.com" = []
    ∧ check_security_headers netCsp "http://example.com"
      = [] ++ ["Missing X-Frame-Options header"] := by
  refine ⟨(c9_header_check netAll "http://example.com").2.2.1 ⟨200, []⟩ rfl
      (by decide) (by decide),
    (c9_header_check net0 "http://example.com").2.1 rfl, ?_⟩
  have h := (c9_header_check netCsp "http://example.com").1
    ⟨200, ["content-security-policy"]⟩ rfl
  simpa using h

/-- C10: the invalid-key outcome fires for every 200 API response whose
`msg` contains "Invalid API key" as a substring, even when name, version and
confidence are all present, and the single reported message is the fixed
literal "Invalid API key", not the service's own `msg` text. -/
theorem c10_invalid_key_trigger (net : Network) (t0 t' : String)
    (n v m : String) (c : Int)
    (hn : normalize_target net t0 = Except.ok t')
    (hm : containsStr m "Invalid API key" = true) :
    run net t0 200 ⟨some n, some v, some c, some m⟩
      = Except.ok ⟨t', ["Invalid API key"]⟩ :=
  run_invalid_key net t0 t' ⟨some n, some v, some c, some m⟩ hn hm

theorem c10_invalid_key_trigger_witness :
    run netAll "http://example.com" 200
        ⟨some "WordPress", some "6.0", some 100, some "Sorry. Invalid API key provided."⟩
      = Except.ok ⟨"http://example.com", ["Invalid API key"]⟩
    ∧ ("Invalid API key" : String) ≠ "Sorry. Invalid API key provided." :=
  ⟨c10_invalid_key_trigger netAll "http://example.com" "http://example.com"
      "WordPress" "6.0" "Sorry. Invalid API key provided." 100 (by decide) (by decide),
    by decide⟩

end WhatCMS
